import Mathlib

/-!
Shallow embedding of `PcaPsfDeterminer.determinePsf`
(`python/lsst/meas/algorithms/pcaPsfDeterminer.py`).

The file models the iterative robust PSF-fitting engine: the kernel-size
computation, the per-round pipeline (PCA/spatial fit, status reset,
chi-square rejection, spatial-residual rejection), the fixed-count loop
with its interactive-debug break, the one extra fit after the loop, and
the finalizer.  External collaborators (the numerical fit routines of
`algorithmsLib`, `afwMath` statistics, the stamp images) are abstracted
as a delegate record of pure functions; everything the Python file itself
computes is translated directly.

Numeric conventions: Python floats are modelled as `ℚ`; `numpy.isnan` is
modelled by a separate Boolean flag carried next to the chi-square value.
The file is Python 2, so `/` between integers is floor division, which the
embedding reproduces exactly.  Python `int(x)` (truncation towards zero)
is `pyInt`.  Python `list.sort(key=k, reverse=True)` is a stable
descending sort, modelled by structural insertion sort `sortByDesc`.
-/

/-- Status of a spatial-cell candidate (`afwMath.SpatialCellCandidate`). -/
inductive Status where
  | good : Status
  | bad : Status
  | unknown : Status
deriving DecidableEq, Repr

/-- Python 2 `int(x)` applied to a float: truncation towards zero. -/
def pyInt (x : ℚ) : ℤ :=
  if 0 ≤ x then ⌊x⌋ else -⌊-x⌋

/-- Stable ascending insertion of one element (ties keep earlier elements first). -/
def insertByAsc (a : ℚ) : List ℚ → List ℚ
  | [] => [a]
  | b :: bs => if a ≤ b then a :: b :: bs else b :: insertByAsc a bs

/-- Stable ascending sort, used to model `numpy.median`'s internal sort. -/
def sortByAsc : List ℚ → List ℚ
  | [] => []
  | a :: as => insertByAsc a (sortByAsc as)

/-- Stable descending insertion by a rational key: the new element is placed
before the first element whose key is not larger, so that elements with equal
keys keep their original relative order, as Python's stable sort does. -/
def insertByDesc {α : Type} (key : α → ℚ) (a : α) : List α → List α
  | [] => [a]
  | b :: bs => if key b ≤ key a then a :: b :: bs else b :: insertByDesc key a bs

/-- Model of Python 2 `list.sort(key=key, reverse=True)`: a stable sort into
descending key order. -/
def sortByDesc {α : Type} (key : α → ℚ) : List α → List α
  | [] => []
  | a :: as => insertByDesc key a (sortByDesc key as)

/-- Model of `numpy.median` on a non-empty list: sort ascending, take the middle
element for odd length, the mean of the two middle elements for even length. -/
def npMedian (xs : List ℚ) : ℚ :=
  let s := sortByAsc xs
  let n := s.length
  if n % 2 = 1 then s.getD (n / 2) 0
  else (s.getD (n / 2 - 1) 0 + s.getD (n / 2) 0) / 2

/-- Kernel stamp-size computation of `determinePsf` (pcaPsfDeterminer.py lines
125-133).  `base` is the configured `self._kernelSize` on entry; `sqrtFn`
models `numpy.sqrt`; `sizes` are the semi-major axes of the candidates'
second-moment ellipses (`afwEll.Axes(quad).getA()`, an external computation,
carried as a candidate attribute).  When `base ≥ 15` the size is used as an
absolute value (`int` of an int is the identity); otherwise it is scaled by
the square root of the median axis, floored with the `int(x + 0.5)` idiom,
made odd, then raised to `kernelSizeMin` and capped at `kernelSizeMax`. -/
def computeKernelSize (base kmin kmax : ℤ) (sqrtFn : ℚ → ℚ) (sizes : List ℚ) : ℤ :=
  if 15 ≤ base then base
  else
    let s0 := 2 * pyInt ((base : ℚ) * sqrtFn (npMedian sizes) + 1/2) + 1
    let s1 := if s0 < kmin then kmin else s0
    if s1 > kmax then kmax else s1

/-- Kernel size as worded by the spec (§4.1): `2·floor(base·sqrt(median)+0.5)+1`
clamped to the interval `[kmin, kmax]`, with the `base ≥ 15` escape hatch.
`s` stands for the already-computed square root of the median axis. -/
def specKernelSize (base kmin kmax : ℤ) (s : ℚ) : ℤ :=
  if 15 ≤ base then base
  else max kmin (min kmax (2 * ⌊(base : ℚ) * s + 1/2⌋ + 1))

/-- Immutable per-candidate data: pixel position (`getXCenter`/`getYCenter`),
the semi-major axis of the source's second-moment ellipse (computed from
Ixx/Iyy/Ixy by the external `afwEll`), and the source id. -/
structure CandBase where
  x : ℚ
  y : ℚ
  semiA : ℚ
  srcId : ℕ
deriving DecidableEq, Repr

/-- One PSF candidate as seen by `determinePsf`: immutable base data plus the
mutable fields the routine touches — the reduced chi-square from the most
recent fit (value and a NaN flag, since floats are modelled as `ℚ`), the
cell-candidate status, the stamp dimensions and the PSF-star source flag. -/
structure Candidate where
  base : CandBase
  chi2 : ℚ
  chi2IsNan : Bool
  status : Status
  width : ℤ
  height : ℤ
  psfStarFlag : Bool
deriving DecidableEq, Repr

/-- The spatially varying kernel produced by a fit: its number of basis
components (`getNKernelParameters`) and, for each component, the spatial
polynomial (`getSpatialFunction(k)`) as a function of image position. -/
structure PsfModel where
  nParams : ℕ
  spatialFn : ℕ → ℚ → ℚ → ℚ

/-- Abstraction of the external numerical routines the loop calls.  Each entry
is a deterministic pure function of the visible state, so any concrete
behaviour of the real delegates (including status- or chi2-dependence) can be
represented by a suitable choice of these functions. -/
structure FitDelegate where
  /-- Reduced chi-square (value, isNaN) that `createKernelFromPsfCandidates`
  assigns to candidate `i` as its side effect, as a function of the candidate
  state at the time of the fit. -/
  newChi2 : List Candidate → ℕ → ℚ × Bool
  /-- The kernel/PSF model produced by `_fitPsf` from the candidate state at
  the time of the fit. -/
  psfOf : List Candidate → PsfModel
  /-- Model of `fitKernelParamsToImage(noSpatialKernel, im, center)`: the
  per-component amplitude parameters and the pixel sums of the returned fixed
  basis kernels (`cast_FixedKernel(k).getSum()`), from the candidate's
  immutable data.  `none` models the exception raised by `cand.getImage()`,
  which makes the loop skip that candidate. -/
  fitSingle : PsfModel → CandBase → Option (List ℚ × List ℚ)
  /-- Model of `afwMath.makeStatistics(· , MEANCLIP | STDEVCLIP)`: the clipped
  mean and clipped standard deviation of a list of residuals. -/
  clipStats : List ℚ → ℚ × ℚ

/-- Debug/interactive configuration of `determinePsf`, from `lsstDebug` and the
`raw_input` prompt.  `sayNo i` abstracts the prompt state machine of round `i`
to its outcome: whether the final reply of that round's prompt is `"n"`. -/
structure DebugCfg where
  display : Bool
  displayIterations : Bool
  pause : Bool
  sayNo : ℕ → Bool

/-- Configuration fields of `PcaPsfDeterminer` used by the modelled control
flow (`self._kernelSize` is mutable state: line 127/129 assigns to it). -/
structure Determiner where
  kernelSize : ℤ
  kernelSizeMin : ℤ
  kernelSizeMax : ℤ
  reducedChi2ForPsfCandidates : ℚ
  nIterForPsf : ℕ
  spatialReject : ℚ
deriving DecidableEq, Repr

/-- Number of pool members rejected in a round (lines 222 and 294):
`int(len(pool) * (iter + 1) / nIterForPsf + 0.5)`.  In Python 2 the inner
division of integers is floor division, so the `+ 0.5` is applied to an
integer and then truncated away again. -/
def pyNumBad (poolSize iter nIter : ℕ) : ℕ :=
  (pyInt (((poolSize * (iter + 1) / nIter : ℕ) : ℚ) + 1/2)).toNat

/-- Mark the candidates at positions `idxs` (0-based, in registry iteration
order) as BAD, leaving everything else unchanged.  Both rejection rules reduce
to this: they compute which candidates to reject and then `setStatus(BAD)`
each of them. -/
def markBad (idxs : List ℕ) (cs : List Candidate) : List Candidate :=
  (List.enumFrom 0 cs).map
    (fun ic => if ic.1 ∈ idxs then { ic.2 with status := Status.bad } else ic.2)

/-- Side effect of `_fitPsf` on the candidates: `createKernelFromPsfCandidates`
assigns each candidate a fresh reduced chi-square (a function of the whole
candidate state at the time of the fit); nothing else on the candidates is
touched. -/
def fitPsfEffect (d : FitDelegate) (cs : List Candidate) : List Candidate :=
  (List.enumFrom 0 cs).map
    (fun ic =>
      { ic.2 with
        chi2 := (d.newChi2 cs ic.1).1
        chi2IsNan := (d.newChi2 cs ic.1).2 })

/-- Lines 203-206: every candidate (bad ones included, `cell.begin(False)`) has
its status set back to UNKNOWN, "innocent until proven guilty". -/
def resetAll (cs : List Candidate) : List Candidate :=
  cs.map (fun c => { c with status := Status.unknown })

/-- Line 216: membership test of the chi-square rejection pool — reduced
chi-square negative, above the configured threshold, or NaN. -/
def isChi2Bad (det : Determiner) (c : Candidate) : Bool :=
  decide (c.chi2 < 0) || decide (det.reducedChi2ForPsfCandidates < c.chi2) || c.chi2IsNan

/-- Lines 211-219: the chi-square rejection pool, built over all candidates
(`cell.begin(False)`), kept with their registry iteration positions. -/
def chi2Pool (det : Determiner) (cs : List Candidate) : List (ℕ × Candidate) :=
  (List.enumFrom 0 cs).filter (fun ic => isChi2Bad det ic.2)

/-- Lines 211-226: chi-square rejection of round `iter`.  The pool is sorted
descending by chi-square (stable, Python `sort(..., reverse=True)`), and the
first `numBad` of it — the worst ones — are marked BAD
(`zip(range(numBad), badCandidates)` stops at the shorter sequence). -/
def chi2RejectStep (det : Determiner) (iter : ℕ) (cs : List Candidate) : List Candidate :=
  let pool := chi2Pool det cs
  let sorted := sortByDesc (fun ic => ic.2.chi2) pool
  let numBad := pyNumBad pool.length iter det.nIterForPsf
  markBad ((sorted.take numBad).map Prod.fst) cs

/-- Lines 257-258: the predicted fractional weight of every kernel component,
from the full model's spatial polynomials evaluated at the candidate centre. -/
def predictList (psf : PsfModel) (cb : CandBase) : List ℚ :=
  (List.range psf.nParams).map (fun k => psf.spatialFn k cb.x cb.y)

/-- Lines 253-262: the residual row of one candidate.  `amp` is the sum of
each fitted amplitude parameter times the pixel sum of its basis kernel
(`amp += p * cast_FixedKernel(k).getSum()`), and the row entry for component
`k` is `params[k] / amp - predict[k]` (`zip` truncates to the shorter list). -/
def residualRow (psf : PsfModel) (cb : CandBase) (params ksums : List ℚ) : List ℚ :=
  let amp := ((params.zip ksums).map (fun pk => pk.1 * pk.2)).sum
  (params.zip (predictList psf cb)).map (fun ap => ap.1 / amp - ap.2)

/-- Lines 237-263: the scan that builds the `candidates` and `residuals` lists
of the spatial-residual rejection.  It iterates over all candidates —
`cell.begin(False)`, bad ones included — and skips exactly those whose stamp
image cannot be produced (the `try/except` around `cand.getImage()`). -/
def spatialScan (d : FitDelegate) (psf : PsfModel) (cs : List Candidate) :
    List (ℕ × List ℚ) :=
  (List.enumFrom 0 cs).filterMap
    (fun ic =>
      match d.fitSingle psf ic.2.base with
      | none => none
      | some (params, ksums) => some (ic.1, residualRow psf ic.2.base params ksums))

/-- Lines 266-302, body of the `for k in range(...)` loop: positions (into the
scan list) of the candidates rejected by component `k`.  The clipped mean and
standard deviation are computed over the whole scanned column, the standard
deviation is floored at `1e-4`, the pool collects scan positions whose
deviation from the mean exceeds `spatialReject * rms`, is sorted descending by
that deviation, and the worst `min(len(pool), numBad)` are selected. -/
def spatialMarkedForComponent (d : FitDelegate) (det : Determiner) (iter : ℕ)
    (entries : List (ℕ × List ℚ)) (k : ℕ) : List ℕ :=
  let col := entries.map (fun e => e.2.getD k 0)
  let stats := d.clipStats col
  let mean := stats.1
  let rms := max (1/10000) stats.2
  let dev := fun i => |(entries.getD i (0, [])).2.getD k 0 - mean|
  let pool := (List.range entries.length).filter
    (fun i => decide (det.spatialReject * rms < dev i))
  let sorted := sortByDesc dev pool
  let numBad := pyNumBad pool.length iter det.nIterForPsf
  (sorted.take (min pool.length numBad)).map (fun i => (entries.getD i (0, [])).1)

/-- Lines 237-302: the spatial-residual rejection of round `iter`.  The scan
list is fixed before any marking, so the final statuses are the input statuses
with BAD at the union of the per-component selections (marking an already-BAD
candidate again is idempotent). -/
def spatialRejectStep (d : FitDelegate) (det : Determiner) (psf : PsfModel)
    (iter : ℕ) (cs : List Candidate) : List Candidate :=
  let entries := spatialScan d psf cs
  markBad (((List.range psf.nParams).map
    (spatialMarkedForComponent d det iter entries)).flatten) cs

/-- One round of the fit loop, lines 196-302, in the source's order: first the
fit (`self._fitPsf`, line 198, producing the round's model and the chi-square
side effect from the pre-reset statuses), then the reset of every status to
UNKNOWN (lines 203-206), then chi-square rejection (lines 211-226), then
spatial-residual rejection (lines 237-302). -/
def oneRound (d : FitDelegate) (det : Determiner) (iter : ℕ)
    (cs : List Candidate) : List Candidate :=
  let psf := d.psfOf cs
  spatialRejectStep d det psf iter
    (chi2RejectStep det iter (resetAll (fitPsfEffect d cs)))

/-- The round as claim C4 words it: reset every status to UNKNOWN first, and
only then fit, so that the fit sees all candidates as eligible.  Written from
the spec for comparison against `oneRound`. -/
def specRoundC4 (d : FitDelegate) (det : Determiner) (iter : ℕ)
    (cs : List Candidate) : List Candidate :=
  let cs0 := resetAll cs
  let psf := d.psfOf cs0
  spatialRejectStep d det psf iter (chi2RejectStep det iter (fitPsfEffect d cs0))

/-- Lines 307-378 gate the early exit: the interactive block runs only under
`display and displayIterations`, the prompt only under `pause`, and the loop
breaks when the reply is `"n"`. -/
def breakAfter (dbg : DebugCfg) (iter : ℕ) : Bool :=
  dbg.display && dbg.displayIterations && dbg.pause && dbg.sayNo iter

/-- The `for iter in range(self._nIterForPsf)` loop, with fuel equal to the
remaining number of rounds.  Returns the final candidate state and the number
of rounds actually executed. -/
def runLoopAux (d : FitDelegate) (det : Determiner) (dbg : DebugCfg) (K : ℕ) :
    ℕ → ℕ → List Candidate → List Candidate × ℕ
  | 0, iter, cs => (cs, iter)
  | fuel + 1, iter, cs =>
    if iter < K then
      if breakAfter dbg iter then (oneRound d det iter cs, iter + 1)
      else runLoopAux d det dbg K fuel (iter + 1) (oneRound d det iter cs)
    else (cs, iter)

/-- Lines 156-378: the whole iteration loop, `nIterForPsf` rounds unless the
interactive debug prompt breaks out early. -/
def runLoop (d : FitDelegate) (det : Determiner) (dbg : DebugCfg)
    (cs : List Candidate) : List Candidate × ℕ :=
  runLoopAux d det dbg det.nIterForPsf det.nIterForPsf 0 cs

/-- The single error `determinePsf` raises itself (line 111,
`RuntimeError("No PSF candidates supplied.")`; the spec calls it InputError). -/
inductive DetError where
  | noPsfCandidates : DetError
deriving DecidableEq, Repr

/-- The determiner instance after the kernel-size computation: lines 125-133
assign the computed size to `self._kernelSize`, mutating the instance. -/
def detAfterSizing (sqrtFn : ℚ → ℚ) (det : Determiner) (cands : List Candidate) :
    Determiner :=
  { det with
    kernelSize := computeKernelSize det.kernelSize det.kernelSizeMin
      det.kernelSizeMax sqrtFn (cands.map (fun c => c.base.semiA)) }

/-- Modelled from the spec: lines 139-140 call `setHeight`/`setWidth` on
`psfCandidateList[0]` only, but `PsfCandidate.setWidth`/`setHeight` are
class-level (static) setters of the external
`SpatialCellImageCandidate` class, which is not part of this repository; per
the spec (§4.1) "every candidate's stamp dimensions are (re)set to this
computed size before any fitting begins".  The effect is therefore modelled as
setting the stamp dimensions of every candidate. -/
def sizedCandidates (size : ℤ) (cs : List Candidate) : List Candidate :=
  cs.map (fun c => { c with width := size, height := size })

/-- The candidate state entering the loop: all candidates carry the computed
stamp size. -/
def loopInput (sqrtFn : ℚ → ℚ) (det : Determiner) (cands : List Candidate) :
    List Candidate :=
  sizedCandidates (detAfterSizing sqrtFn det cands).kernelSize cands

/-- The candidate state after the loop (before the extra fit). -/
def loopFinalState (d : FitDelegate) (sqrtFn : ℚ → ℚ) (det : Determiner)
    (dbg : DebugCfg) (cands : List Candidate) : List Candidate :=
  (runLoop d (detAfterSizing sqrtFn det cands) dbg (loopInput sqrtFn det cands)).1

/-- Lines 434-442 of the finalizer: every candidate whose final status is not
BAD (`cell.begin(True)` skips BAD) has the PSFSTAR flag set on its source. -/
def setPsfStarFlags (cs : List Candidate) : List Candidate :=
  cs.map (fun c => if c.status ≠ Status.bad then { c with psfStarFlag := true } else c)

/-- `PcaPsfDeterminer.determinePsf`: fail on an empty candidate list before
anything else (lines 110-111); compute the kernel size and store it back into
the instance (lines 116-133); set every candidate's stamp size (lines 139-140,
spec-modelled static setters); run the iteration loop (lines 156-378); fit one
last time "to take advantage of the last iteration" (line 381) — producing the
returned model and one more chi-square side effect — and set the PSF-star
flags (lines 434-442).  Returns the model, the mutated candidate set and the
mutated determiner instance. -/
def determinePsf (d : FitDelegate) (sqrtFn : ℚ → ℚ) (det : Determiner)
    (dbg : DebugCfg) (cands : List Candidate) :
    Except DetError (PsfModel × List Candidate × Determiner) :=
  if cands.length = 0 then .error .noPsfCandidates
  else
    .ok (d.psfOf (loopFinalState d sqrtFn det dbg cands),
      setPsfStarFlags (fitPsfEffect d (loopFinalState d sqrtFn det dbg cands)),
      detAfterSizing sqrtFn det cands)

/-! ### Arithmetic helpers -/

/-- Python's `int(x + 0.5)` applied to a value that is already a nonnegative
integer is that integer: the `+ 0.5` of line 222/294 is inert under Python 2
integer division. -/
theorem pyInt_natCast_add_half (n : ℕ) : pyInt ((n : ℚ) + 1/2) = n := by
  rw [pyInt, if_pos (by positivity), Int.floor_eq_iff]
  constructor <;> push_cast <;> linarith

/-- The per-round rejection count is plain floor division. -/
theorem pyNumBad_eq (poolSize iter nIter : ℕ) :
    pyNumBad poolSize iter nIter = poolSize * (iter + 1) / nIter := by
  rw [pyNumBad, pyInt_natCast_add_half, Int.toNat_natCast]

/-- Within the loop (`iter < nIter`), the rejection count never exceeds the
pool size. -/
theorem pyNumBad_le (poolSize iter nIter : ℕ) (hK : 0 < nIter)
    (hi : iter < nIter) : pyNumBad poolSize iter nIter ≤ poolSize := by
  rw [pyNumBad_eq]
  calc poolSize * (iter + 1) / nIter
      ≤ poolSize * nIter / nIter :=
        Nat.div_le_div_right (Nat.mul_le_mul_left _ hi)
    _ = poolSize := Nat.mul_div_cancel _ hK

/-! ### Sorting helpers -/

theorem insertByDesc_perm {α : Type} (key : α → ℚ) (a : α) (l : List α) :
    (insertByDesc key a l).Perm (a :: l) := by
  induction l with
  | nil => simp [insertByDesc]
  | cons b bs ih =>
    rw [insertByDesc]
    split
    · exact List.Perm.refl _
    · exact (ih.cons b).trans (List.Perm.swap a b bs)

/-- The stable descending sort is a permutation of its input. -/
theorem sortByDesc_perm {α : Type} (key : α → ℚ) (l : List α) :
    (sortByDesc key l).Perm l := by
  induction l with
  | nil => exact List.Perm.refl _
  | cons a as ih =>
    rw [sortByDesc]
    exact (insertByDesc_perm key a (sortByDesc key as)).trans (ih.cons a)

/-! ### Counting marked candidates -/

/-- Number of BAD candidates in a state. -/
def countBad (cs : List Candidate) : ℕ :=
  cs.countP (fun c => decide (c.status = Status.bad))

theorem countBad_markBad_aux (idxs : List ℕ) :
    ∀ (n : ℕ) (cs : List Candidate), (∀ c ∈ cs, c.status ≠ Status.bad) →
    List.countP (fun c => decide (c.status = Status.bad))
      ((List.enumFrom n cs).map
        (fun ic => if ic.1 ∈ idxs then { ic.2 with status := Status.bad } else ic.2))
      = ((List.range' n cs.length).filter (fun j => decide (j ∈ idxs))).length := by
  intro n cs
  induction cs generalizing n with
  | nil => simp
  | cons c rest ih =>
    intro h
    rw [List.enumFrom_cons, List.map_cons, List.countP_cons,
      ih (n + 1) (fun x hx => h x (List.mem_cons_of_mem _ hx))]
    show _ = ((List.range' n (rest.length + 1)).filter _).length
    rw [List.range'_succ, List.filter_cons]
    by_cases hn : n ∈ idxs
    · simp [hn]
    · have hc : c.status ≠ Status.bad := h c (List.mem_cons_self c rest)
      simp [hn, hc]

theorem length_filter_range'_nodup (n : ℕ) (idxs : List ℕ) (hnd : idxs.Nodup)
    (hb : ∀ j ∈ idxs, j < n) :
    ((List.range' 0 n).filter (fun j => decide (j ∈ idxs))).length = idxs.length := by
  have h1 : ((List.range' 0 n).filter (fun j => decide (j ∈ idxs))).Nodup :=
    List.Nodup.filter _ (List.nodup_range' 0 n)
  have h2 : ((List.range' 0 n).filter (fun j => decide (j ∈ idxs))).toFinset
      = idxs.toFinset := by
    ext j
    simp only [List.mem_toFinset, List.mem_filter, List.mem_range'_1,
      decide_eq_true_eq]
    constructor
    · rintro ⟨_, hj⟩
      exact hj
    · intro hj
      exact ⟨⟨Nat.zero_le _, by simpa using hb j hj⟩, hj⟩
  rw [← List.toFinset_card_of_nodup h1, h2, List.toFinset_card_of_nodup hnd]

/-- Marking a duplicate-free, in-bounds set of positions in a state with no
BAD candidate leaves exactly that many BAD candidates. -/
theorem countBad_markBad (idxs : List ℕ) (cs : List Candidate)
    (hnd : idxs.Nodup) (hb : ∀ j ∈ idxs, j < cs.length)
    (hcs : ∀ c ∈ cs, c.status ≠ Status.bad) :
    countBad (markBad idxs cs) = idxs.length := by
  rw [countBad, markBad, countBad_markBad_aux idxs 0 cs hcs,
    length_filter_range'_nodup cs.length idxs hnd hb]

/-- Unfolding of the chi-square rejection step to its marking form. -/
theorem chi2RejectStep_eq_markBad (det : Determiner) (iter : ℕ) (cs : List Candidate) :
    chi2RejectStep det iter cs
      = markBad (((sortByDesc (fun ic => ic.2.chi2) (chi2Pool det cs)).take
          (pyNumBad (chi2Pool det cs).length iter det.nIterForPsf)).map Prod.fst) cs := rfl

/-- Positions selected by the chi-square rejection step are duplicate-free. -/
theorem chi2Marked_nodup (det : Determiner) (iter : ℕ) (cs : List Candidate) :
    (((sortByDesc (fun ic => ic.2.chi2) (chi2Pool det cs)).take
        (pyNumBad (chi2Pool det cs).length iter det.nIterForPsf)).map Prod.fst).Nodup := by
  have hfst : ((chi2Pool det cs).map Prod.fst).Sublist (List.range' 0 cs.length) := by
    rw [chi2Pool, ← List.enumFrom_map_fst 0 cs]
    exact List.Sublist.map Prod.fst (List.filter_sublist _)
  have hndpool : ((chi2Pool det cs).map Prod.fst).Nodup :=
    hfst.nodup (List.nodup_range' 0 cs.length)
  have hnds : ((sortByDesc (fun ic => ic.2.chi2) (chi2Pool det cs)).map Prod.fst).Nodup :=
    (((sortByDesc_perm (fun ic => ic.2.chi2) (chi2Pool det cs)).map Prod.fst).symm).nodup hndpool
  rw [List.map_take]
  exact (List.take_sublist _ _).nodup hnds

/-- Positions selected by the chi-square rejection step are in bounds. -/
theorem chi2Marked_lt (det : Determiner) (iter : ℕ) (cs : List Candidate) :
    ∀ j ∈ ((sortByDesc (fun ic => ic.2.chi2) (chi2Pool det cs)).take
        (pyNumBad (chi2Pool det cs).length iter det.nIterForPsf)).map Prod.fst,
      j < cs.length := by
  intro j hj
  rw [List.map_take] at hj
  have hj2 : j ∈ (sortByDesc (fun ic => ic.2.chi2) (chi2Pool det cs)).map Prod.fst :=
    List.take_subset _ _ hj
  have hj3 : j ∈ (chi2Pool det cs).map Prod.fst :=
    (((sortByDesc_perm (fun ic => ic.2.chi2) (chi2Pool det cs)).map Prod.fst)).mem_iff.mp hj2
  have hfst : ((chi2Pool det cs).map Prod.fst).Sublist (List.range' 0 cs.length) := by
    rw [chi2Pool, ← List.enumFrom_map_fst 0 cs]
    exact List.Sublist.map Prod.fst (List.filter_sublist _)
  have hj4 : j ∈ List.range' 0 cs.length := hfst.subset hj3
  have := List.mem_range'_1.mp hj4
  omega

/-- C1, amended: in round `iter` (0-indexed) of a run with `K = nIterForPsf`
rounds, the chi-square rejection step marks BAD exactly
`poolSize * (iter + 1) / K` candidates (Python 2 floor division; the written
`+ 0.5` is inert because the division is integral), the worst ones in
descending chi-square order; in particular for a pool of 10 and `K = 5` the
counts for rounds 0..4 are 2, 4, 6, 8, 10 — not 1, 3, 5, 7, 10. -/
theorem chi2_rejection_count (det : Determiner) (iter : ℕ) (cs : List Candidate)
    (hK : 0 < det.nIterForPsf) (hi : iter < det.nIterForPsf)
    (hcs : ∀ c ∈ cs, c.status ≠ Status.bad) :
    countBad (chi2RejectStep det iter cs)
      = (chi2Pool det cs).length * (iter + 1) / det.nIterForPsf
    ∧ (List.range 5).map (fun i => pyNumBad 10 i 5) = [2, 4, 6, 8, 10] := by
  constructor
  · rw [chi2RejectStep_eq_markBad,
      countBad_markBad _ cs (chi2Marked_nodup det iter cs) (chi2Marked_lt det iter cs) hcs,
      List.length_map, List.length_take,
      (sortByDesc_perm (fun ic => ic.2.chi2) (chi2Pool det cs)).length_eq,
      min_eq_left (pyNumBad_le _ _ _ hK hi), pyNumBad_eq]
  · simp only [pyNumBad_eq]
    decide

/-- Test fixture: a candidate with reduced chi-square 100, status UNKNOWN. -/
def cChi100 : Candidate :=
  { base := { x := 0, y := 0, semiA := 1, srcId := 0 }, chi2 := 100,
    chi2IsNan := false, status := Status.unknown, width := 0, height := 0,
    psfStarFlag := false }

/-- Test fixture: determiner configuration with chi-square threshold 10 and
five rounds. -/
def detC1 : Determiner :=
  { kernelSize := 21, kernelSizeMin := 5, kernelSizeMax := 99,
    reducedChi2ForPsfCandidates := 10, nIterForPsf := 5, spatialReject := 3 }

/-- Test fixture: ten candidates, all of which fail the chi-square threshold,
so the rejection pool of round 0 has size 10. -/
def csC1 : List Candidate :=
  [cChi100, cChi100, cChi100, cChi100, cChi100, cChi100, cChi100, cChi100,
   cChi100, cChi100]

/-- C1, counterexample: with a rejection pool of size P = 10 and K = 5 rounds,
round 0 of the code marks BAD 2 candidates, not the 1 candidate the claim's
expected count list {1, 3, 5, 7, 10} asserts (and not 3, the value of the
claimed formula `round(P·(i+1)/K + 0.5)` read with half-up rounding). -/
theorem c1_counterexample :
    countBad (chi2RejectStep detC1 0 csC1) = 2
      ∧ countBad (chi2RejectStep detC1 0 csC1) ≠ 1
      ∧ countBad (chi2RejectStep detC1 0 csC1) ≠ 3 := by
  have h : chi2RejectStep detC1 0 csC1 = markBad [0, 1] csC1 := by
    rw [chi2RejectStep_eq_markBad]
    norm_num [chi2Pool, csC1, cChi100, detC1, isChi2Bad, List.enumFrom,
      sortByDesc, insertByDesc, pyNumBad_eq, List.take]
  have h2 : countBad (markBad [0, 1] csC1) = 2 :=
    countBad_markBad [0, 1] csC1 (by decide) (by decide) (by decide)
  rw [h, h2]
  exact ⟨rfl, by decide, by decide⟩

/-- C1, witness for the amended count theorem at a concrete input. -/
theorem chi2_rejection_count_witness :
    countBad (chi2RejectStep detC1 0 [cChi100])
        = (chi2Pool detC1 [cChi100]).length * (0 + 1) / detC1.nIterForPsf
      ∧ (List.range 5).map (fun i => pyNumBad 10 i 5) = [2, 4, 6, 8, 10] :=
  chi2_rejection_count detC1 0 [cChi100] (by decide) (by decide) (by decide)

/-- With display debugging off, the loop cannot break early and runs until the
round index reaches `K`. -/
theorem runLoopAux_no_break (d : FitDelegate) (det : Determiner) (dbg : DebugCfg)
    (K : ℕ) (hd : dbg.display = false) :
    ∀ (fuel iter : ℕ) (cs : List Candidate), iter + fuel = K →
    (runLoopAux d det dbg K fuel iter cs).2 = K := by
  intro fuel
  induction fuel with
  | zero =>
    intro iter cs h
    rw [runLoopAux]
    omega
  | succ n ih =>
    intro iter cs h
    rw [runLoopAux, if_pos (show iter < K by omega)]
    have hb : breakAfter dbg iter = false := by simp [breakAfter, hd]
    rw [hb, if_neg (by simp)]
    exact ih (iter + 1) (oneRound d det iter cs) (by omega)

/-- C2, amended: for every non-empty candidate list, when display debugging is
off (the production configuration) the loop executes exactly
`K = nIterForPsf` rounds regardless of how many candidates become BAD; there
is no convergence-based exit.  The only early exit is the interactive debug
break of lines 377-378 (reply "n" under `display`, `displayIterations` and
`pause`), exhibited by `c2_counterexample`. -/
theorem loop_runs_exactly_nIter (d : FitDelegate) (det : Determiner)
    (dbg : DebugCfg) (cs : List Candidate) (hcs : cs ≠ [])
    (hd : dbg.display = false) :
    (runLoop d det dbg cs).2 = det.nIterForPsf := by
  rw [runLoop]
  exact runLoopAux_no_break d det dbg det.nIterForPsf hd det.nIterForPsf 0 cs
    (by omega)

/-- Test fixture: a delegate whose fits assign chi-square 0 and produce a
kernel with no components; all single-stamp fits fail. -/
def dTriv : FitDelegate :=
  { newChi2 := fun _ _ => (0, false)
    psfOf := fun _ => { nParams := 0, spatialFn := fun _ _ _ => 0 }
    fitSingle := fun _ _ => none
    clipStats := fun _ => (0, 0) }

/-- Test fixture: display debugging off. -/
def dbgOff : DebugCfg :=
  { display := false, displayIterations := false, pause := false
    sayNo := fun _ => false }

/-- Test fixture: display debugging fully on, with the user replying "n" at
every prompt. -/
def dbgOn : DebugCfg :=
  { display := true, displayIterations := true, pause := true
    sayNo := fun _ => true }

/-- C2, witness: a concrete five-round run with display off executes all five
rounds. -/
theorem loop_runs_exactly_nIter_witness :
    (runLoop dTriv detC1 dbgOff [cChi100]).2 = detC1.nIterForPsf :=
  loop_runs_exactly_nIter dTriv detC1 dbgOff [cChi100]
    (List.cons_ne_nil _ _) rfl

/-- C2, counterexample: with display debugging on and the user replying "n",
the run configured for five rounds exits the loop after a single round — an
early-exit path out of the loop does exist (lines 377-378). -/
theorem c2_counterexample :
    (runLoop dTriv detC1 dbgOn [cChi100]).2 = 1
      ∧ (runLoop dTriv detC1 dbgOn [cChi100]).2 ≠ detC1.nIterForPsf := by
  have h : (runLoop dTriv detC1 dbgOn [cChi100]).2 = 1 := by
    rw [runLoop]
    rw [show detC1.nIterForPsf = 5 from rfl]
    rw [runLoopAux, if_pos (by omega), if_pos (by rfl)]
  exact ⟨h, by rw [h]; decide⟩

/-- Enumerating a list produced by mapping over an enumeration with the same
start reproduces the original indices. -/
theorem enumFrom_enumFromMap (g : ℕ × Candidate → Candidate) :
    ∀ (n : ℕ) (cs : List Candidate),
      List.enumFrom n ((List.enumFrom n cs).map g)
        = (List.enumFrom n cs).map (fun ic => (ic.1, g ic)) := by
  intro n cs
  induction cs generalizing n with
  | nil => simp
  | cons c rest ih => simp [List.enumFrom_cons, ih (n + 1)]

/-- Mapping a projection over an index-driven rewrite of the candidates equals
mapping it over the original list whenever the rewrite preserves the
projection. -/
theorem map_proj_enumFromMap {β : Type} (f : Candidate → β)
    (g : ℕ × Candidate → Candidate) (hg : ∀ ic, f (g ic) = f ic.2) :
    ∀ (n : ℕ) (cs : List Candidate), ((List.enumFrom n cs).map g).map f = cs.map f := by
  intro n cs
  induction cs generalizing n with
  | nil => simp
  | cons c rest ih => simp [List.enumFrom_cons, hg, ih (n + 1)]

/-- C3, amended: the spatial-residual scan (which fixes both the `candidates`
list and the `residuals` array of lines 237-263) iterates over all candidates
regardless of status — `cell.begin(False)` includes BAD candidates — so
marking any set of candidates BAD, in particular the candidates the same
round's chi-square step just rejected, does not remove them from the
spatial-residual computation; only a failing stamp fit does. -/
theorem spatialScan_markBad (d : FitDelegate) (psf : PsfModel) (idxs : List ℕ)
    (cs : List Candidate) :
    spatialScan d psf (markBad idxs cs) = spatialScan d psf cs := by
  rw [spatialScan, markBad, enumFrom_enumFromMap, List.filterMap_map, spatialScan]
  congr 1
  funext ic
  by_cases h : ic.1 ∈ idxs <;> simp [Function.comp_def, h]

/-- Test fixture: a delegate that assigns every candidate chi-square 100, fits
a one-component kernel and succeeds on every stamp with unit parameters. -/
def dC3 : FitDelegate :=
  { newChi2 := fun _ _ => (100, false)
    psfOf := fun _ => { nParams := 1, spatialFn := fun _ _ _ => 0 }
    fitSingle := fun _ _ => some ([1], [1])
    clipStats := fun _ => (0, 0) }

/-- Test fixture: a single-round configuration (`nIterForPsf = 1`), chi-square
threshold 10. -/
def detK1 : Determiner :=
  { kernelSize := 21, kernelSizeMin := 5, kernelSizeMax := 99,
    reducedChi2ForPsfCandidates := 10, nIterForPsf := 1, spatialReject := 3 }

/-- C3, counterexample: in a round whose chi-square step marks the only
candidate BAD, that same candidate still appears in the same round's
spatial-residual scan (position 0 of the scan list), contradicting the claim
that the spatial-residual computation runs only over candidates whose status
is not BAD. -/
theorem c3_counterexample :
    (chi2RejectStep detK1 0 (resetAll (fitPsfEffect dC3 [cChi100]))).map
        (fun c => c.status) = [Status.bad]
      ∧ (spatialScan dC3 (dC3.psfOf [cChi100])
          (chi2RejectStep detK1 0 (resetAll (fitPsfEffect dC3 [cChi100])))).map
            Prod.fst = [0]
      ∧ oneRound dC3 detK1 0 [cChi100]
          = spatialRejectStep dC3 detK1 (dC3.psfOf [cChi100]) 0
              (chi2RejectStep detK1 0 (resetAll (fitPsfEffect dC3 [cChi100]))) := by
  have hstate : chi2RejectStep detK1 0 (resetAll (fitPsfEffect dC3 [cChi100]))
      = [{ cChi100 with status := Status.bad }] := by
    rw [chi2RejectStep_eq_markBad]
    norm_num [fitPsfEffect, resetAll, dC3, cChi100, detK1, chi2Pool, isChi2Bad,
      List.enumFrom, sortByDesc, insertByDesc, pyNumBad_eq, List.take, markBad]
  refine ⟨by rw [hstate]; rfl, ?_, rfl⟩
  rw [hstate]
  simp [spatialScan, List.enumFrom, dC3]

/-- After the reset of lines 203-206 every candidate's status is UNKNOWN. -/
theorem statuses_resetAll (cs : List Candidate) :
    (resetAll cs).map (fun c => c.status) = cs.map (fun _ => Status.unknown) := by
  simp [resetAll, List.map_map, Function.comp_def]

/-- C4, amended: within a round, the reset of every status to UNKNOWN happens
after the round's fit and before the two rejection steps — not before the fit.
Every candidate enters the chi-square rejection with status UNKNOWN, but the
fit itself (`self._fitPsf`, line 198) sees the statuses left by the previous
round's rejections, both for the produced model (`psfOf` applied to the
un-reset state) and for the chi-square side effect. -/
theorem round_resets_after_fit (d : FitDelegate) (det : Determiner) (iter : ℕ)
    (cs : List Candidate) :
    (resetAll (fitPsfEffect d cs)).map (fun c => c.status)
        = cs.map (fun _ => Status.unknown)
      ∧ oneRound d det iter cs
          = spatialRejectStep d det (d.psfOf cs) iter
              (chi2RejectStep det iter (resetAll (fitPsfEffect d cs))) := by
  constructor
  · rw [statuses_resetAll, fitPsfEffect]
    exact map_proj_enumFromMap (fun _ => Status.unknown) _ (fun ic => rfl) 0 cs
  · rfl

/-- Test fixture: a delegate whose fit is status-sensitive, as the real
delegate is (`createKernelFromPsfCandidates` fits only the non-BAD
candidates): it assigns chi-square 100 when some candidate is BAD at fit time
and 0 otherwise. -/
def dC4 : FitDelegate :=
  { newChi2 := fun cs _ =>
      (if cs.any (fun c => decide (c.status = Status.bad)) then 100 else 0, false)
    psfOf := fun _ => { nParams := 0, spatialFn := fun _ _ _ => 0 }
    fitSingle := fun _ _ => none
    clipStats := fun _ => (0, 0) }

/-- Test fixture: a candidate left BAD by a previous round. -/
def cBadPrev : Candidate := { cChi100 with status := Status.bad }

/-- C4, counterexample: on a candidate left BAD by the previous round, the
code's round (fit first, then reset) rejects it again — the fit saw the BAD
status — while the round as the claim orders it (reset first, so the fit sees
all candidates as eligible) leaves it UNKNOWN.  The claim's ordering is
observably different from the code's. -/
theorem c4_counterexample :
    (oneRound dC4 detK1 0 [cBadPrev]).map (fun c => c.status) = [Status.bad]
      ∧ (specRoundC4 dC4 detK1 0 [cBadPrev]).map (fun c => c.status)
          = [Status.unknown]
      ∧ oneRound dC4 detK1 0 [cBadPrev] ≠ specRoundC4 dC4 detK1 0 [cBadPrev] := by
  have h1 : oneRound dC4 detK1 0 [cBadPrev] = [{ cChi100 with status := Status.bad, chi2 := 100 }] := by
    show spatialRejectStep dC4 detK1 (dC4.psfOf [cBadPrev]) 0
        (chi2RejectStep detK1 0 (resetAll (fitPsfEffect dC4 [cBadPrev]))) = _
    have hfit : chi2RejectStep detK1 0 (resetAll (fitPsfEffect dC4 [cBadPrev]))
        = [{ cChi100 with status := Status.bad, chi2 := 100 }] := by
      rw [chi2RejectStep_eq_markBad]
      norm_num [fitPsfEffect, resetAll, dC4, cBadPrev, cChi100, detK1, chi2Pool,
        isChi2Bad, List.enumFrom, sortByDesc, insertByDesc, pyNumBad_eq,
        List.take, markBad]
      all_goals decide
    rw [hfit]
    simp [spatialRejectStep, spatialScan, spatialMarkedForComponent, dC4,
      List.enumFrom, markBad]
  have h2 : specRoundC4 dC4 detK1 0 [cBadPrev] = [{ cChi100 with status := Status.unknown, chi2 := 0 }] := by
    show spatialRejectStep dC4 detK1 (dC4.psfOf (resetAll [cBadPrev])) 0
        (chi2RejectStep detK1 0 (fitPsfEffect dC4 (resetAll [cBadPrev]))) = _
    have hfit : chi2RejectStep detK1 0 (fitPsfEffect dC4 (resetAll [cBadPrev]))
        = [{ cChi100 with status := Status.unknown, chi2 := 0 }] := by
      rw [chi2RejectStep_eq_markBad]
      norm_num [fitPsfEffect, resetAll, dC4, cBadPrev, cChi100, detK1, chi2Pool,
        isChi2Bad, List.enumFrom, sortByDesc, insertByDesc, pyNumBad_eq,
        List.take, markBad]
      all_goals decide
    rw [hfit]
    simp [spatialRejectStep, spatialScan, spatialMarkedForComponent, dC4,
      List.enumFrom, markBad]
  refine ⟨by rw [h1]; rfl, by rw [h2]; rfl, ?_⟩
  rw [h1, h2]
  decide

/-- Test fixture: an exact square-root function for the inputs used in the
concrete kernel-size check (`sqrt 4 = 2`). -/
def sqrtC5 : ℚ → ℚ := fun q => if q = 4 then 2 else 0

/-- C5: for a non-empty candidate list the kernel stamp size is the configured
base unchanged when `base ≥ 15` (no moment-based scaling), and otherwise
`2·floor(base·sqrt(median axis)+0.5)+1` clamped to `[kmin, kmax]` — the code's
raise-then-cap sequence agrees with the spec's clamp whenever `kmin ≤ kmax`;
and for semi-major axes `[1, 4, 9]`, base 5, bounds `[5, 99]` the computed
size is 21. -/
theorem kernelSize_spec (base kmin kmax : ℤ) (sizes : List ℚ) (sqrtFn : ℚ → ℚ)
    (hbounds : kmin ≤ kmax) (hbase : 0 ≤ base)
    (hs0 : 0 ≤ sqrtFn (npMedian sizes))
    (hsq : sqrtFn (npMedian sizes) * sqrtFn (npMedian sizes) = npMedian sizes) :
    computeKernelSize base kmin kmax sqrtFn sizes
        = specKernelSize base kmin kmax (sqrtFn (npMedian sizes))
      ∧ computeKernelSize 5 5 99 sqrtC5 [1, 4, 9] = 21 := by
  constructor
  · by_cases h15 : 15 ≤ base
    · rw [computeKernelSize, specKernelSize, if_pos h15, if_pos h15]
    · have harg : (0 : ℚ) ≤ (base : ℚ) * sqrtFn (npMedian sizes) + 1/2 := by
        have hmul : (0 : ℚ) ≤ (base : ℚ) * sqrtFn (npMedian sizes) :=
          mul_nonneg (by exact_mod_cast hbase) hs0
        linarith
      simp only [computeKernelSize, specKernelSize, if_neg h15]
      rw [pyInt, if_pos harg]
      rw [max_def, min_def]
      split_ifs <;> omega
  · norm_num [computeKernelSize, sqrtC5, npMedian, sortByAsc, insertByAsc,
      pyInt, List.getD]

/-- C5, witness: the theorem applied at base 5, bounds `[5, 99]`, axes
`[1, 4, 9]` and the exact square root of the median axis 4. -/
theorem kernelSize_spec_witness :
    computeKernelSize 5 5 99 sqrtC5 [1, 4, 9]
        = specKernelSize 5 5 99 (sqrtC5 (npMedian [1, 4, 9]))
      ∧ computeKernelSize 5 5 99 sqrtC5 [1, 4, 9] = 21 :=
  kernelSize_spec 5 5 99 [1, 4, 9] sqrtC5 (by norm_num) (by norm_num)
    (by norm_num [sqrtC5, npMedian, sortByAsc, insertByAsc, List.getD])
    (by norm_num [sqrtC5, npMedian, sortByAsc, insertByAsc, List.getD])

/-- C6: with an empty candidate list `determinePsf` fails immediately with the
input error — the emptiness check is the first act of the routine, before the
cell-set construction, any candidate mutation or any fit, and the error
carries no partial result; with any non-empty candidate list this error is
never raised and the routine returns a result. -/
theorem determinePsf_empty_fails (d : FitDelegate) (sqrtFn : ℚ → ℚ)
    (det : Determiner) (dbg : DebugCfg) :
    determinePsf d sqrtFn det dbg [] = .error .noPsfCandidates
      ∧ ∀ cs : List Candidate, cs ≠ [] →
          ∃ r, determinePsf d sqrtFn det dbg cs = .ok r := by
  constructor
  · rfl
  · intro cs hcs
    refine ⟨(d.psfOf (loopFinalState d sqrtFn det dbg cs),
      setPsfStarFlags (fitPsfEffect d (loopFinalState d sqrtFn det dbg cs)),
      detAfterSizing sqrtFn det cs), ?_⟩
    rw [determinePsf, if_neg (by simpa using hcs)]

/-- C6, witness: the empty list fails, a one-candidate list succeeds. -/
theorem determinePsf_empty_fails_witness :
    determinePsf dTriv sqrtC5 detC1 dbgOff [] = .error .noPsfCandidates
      ∧ ∃ r, determinePsf dTriv sqrtC5 detC1 dbgOff [cChi100] = .ok r :=
  ⟨(determinePsf_empty_fails dTriv sqrtC5 detC1 dbgOff).1,
   (determinePsf_empty_fails dTriv sqrtC5 detC1 dbgOff).2 [cChi100]
     (List.cons_ne_nil _ _)⟩

/-- The extra fit after the loop only rewrites chi-squares: statuses are
untouched. -/
theorem statuses_fitPsfEffect (d : FitDelegate) (cs : List Candidate) :
    (fitPsfEffect d cs).map (fun c => c.status) = cs.map (fun c => c.status) := by
  rw [fitPsfEffect]
  exact map_proj_enumFromMap (fun c => c.status)
    (fun ic =>
      { ic.2 with
        chi2 := (d.newChi2 cs ic.1).1
        chi2IsNan := (d.newChi2 cs ic.1).2 })
    (fun ic => rfl) 0 cs

/-- The finalizer sets PSF-star flags only: statuses are untouched. -/
theorem statuses_setPsfStarFlags (cs : List Candidate) :
    (setPsfStarFlags cs).map (fun c => c.status) = cs.map (fun c => c.status) := by
  simp only [setPsfStarFlags, List.map_map, Function.comp_def]
  refine List.map_congr_left (fun c _ => ?_)
  by_cases h : c.status = Status.bad <;> simp [h]

/-- C7: for every non-empty candidate list, `determinePsf` returns the model
produced by the one extra fit performed after the final loop round (line 381)
on the candidate set as finalized by the last rejection pass, and after the
loop no candidate status changes any more: the returned candidates carry
exactly the post-loop statuses (the extra fit rewrites chi-squares, the
finalizer sets source flags). -/
theorem finalFit_after_loop (d : FitDelegate) (sqrtFn : ℚ → ℚ)
    (det : Determiner) (dbg : DebugCfg) (cs : List Candidate) (h : cs ≠ []) :
    determinePsf d sqrtFn det dbg cs
        = .ok (d.psfOf (loopFinalState d sqrtFn det dbg cs),
            setPsfStarFlags (fitPsfEffect d (loopFinalState d sqrtFn det dbg cs)),
            detAfterSizing sqrtFn det cs)
      ∧ (setPsfStarFlags (fitPsfEffect d (loopFinalState d sqrtFn det dbg cs))).map
            (fun c => c.status)
          = (loopFinalState d sqrtFn det dbg cs).map (fun c => c.status) := by
  constructor
  · rw [determinePsf, if_neg (by simpa using h)]
  · rw [statuses_setPsfStarFlags, statuses_fitPsfEffect]

/-- C7, witness: the theorem applied to a concrete one-candidate run. -/
theorem finalFit_after_loop_witness :
    determinePsf dTriv sqrtC5 detC1 dbgOff [cChi100]
        = .ok (dTriv.psfOf (loopFinalState dTriv sqrtC5 detC1 dbgOff [cChi100]),
            setPsfStarFlags
              (fitPsfEffect dTriv (loopFinalState dTriv sqrtC5 detC1 dbgOff [cChi100])),
            detAfterSizing sqrtC5 detC1 [cChi100])
      ∧ (setPsfStarFlags
            (fitPsfEffect dTriv (loopFinalState dTriv sqrtC5 detC1 dbgOff [cChi100]))).map
            (fun c => c.status)
          = (loopFinalState dTriv sqrtC5 detC1 dbgOff [cChi100]).map
              (fun c => c.status) :=
  finalFit_after_loop dTriv sqrtC5 detC1 dbgOff [cChi100] (List.cons_ne_nil _ _)

/-- Residual row as claim C8 words it: amplitude parameters normalized by
their plain sum, minus the predicted spatial weights.  Written from the spec
for comparison against `residualRow`. -/
def specResidualRow (psf : PsfModel) (cb : CandBase) (params : List ℚ) : List ℚ :=
  (params.zip (predictList psf cb)).map (fun ap => ap.1 / params.sum - ap.2)

/-- A parameter-weighted sum over unit kernel sums collapses to the plain
parameter sum. -/
theorem sum_zip_mul_ones (params : List ℚ) :
    ∀ ksums : List ℚ, ksums.length = params.length → (∀ s ∈ ksums, s = 1) →
    ((params.zip ksums).map (fun pk => pk.1 * pk.2)).sum = params.sum := by
  induction params with
  | nil => intro ksums _ _; simp
  | cons p ps ih =>
    intro ksums hlen h1
    cases ksums with
    | nil => simp at hlen
    | cons s ss =>
      have hs : s = 1 := h1 s (List.mem_cons_self s ss)
      have hlen2 : ss.length = ps.length := by simpa using hlen
      have h12 : ∀ t ∈ ss, t = 1 := fun t ht => h1 t (List.mem_cons_of_mem _ ht)
      simp [hs, ih ss hlen2 h12]

/-- C8, amended: the residual row of a candidate is the fitted amplitude
parameters normalized by the flux-weighted sum `Σ params[i]·kernelSum[i]`
(each parameter times the pixel sum of its basis kernel, line 253-255), minus
the model's spatial polynomials at the candidate position; this equals the
claim's plain-sum normalization exactly when every basis kernel has unit
pixel sum. -/
theorem residualRow_unit_sums (psf : PsfModel) (cb : CandBase)
    (params ksums : List ℚ) (hlen : ksums.length = params.length)
    (h1 : ∀ s ∈ ksums, s = 1) :
    residualRow psf cb params ksums = specResidualRow psf cb params := by
  rw [residualRow, specResidualRow, sum_zip_mul_ones params ksums hlen h1]

/-- Test fixture: a two-component kernel whose spatial polynomials are zero. -/
def psf2 : PsfModel := { nParams := 2, spatialFn := fun _ _ _ => 0 }

/-- Test fixture: a candidate base at the origin. -/
def cb0 : CandBase := { x := 0, y := 0, semiA := 1, srcId := 0 }

/-- C8, witness: with unit kernel sums the code's residual row coincides with
the plain-sum normalization. -/
theorem residualRow_unit_sums_witness :
    residualRow psf2 cb0 [1, 2] [1, 1] = specResidualRow psf2 cb0 [1, 2] :=
  residualRow_unit_sums psf2 cb0 [1, 2] [1, 1] (by norm_num)
    (by intro s hs; rcases List.mem_cons.mp hs with h | h
        · exact h
        · simpa using h)

/-- C8, counterexample: with basis-kernel pixel sums `[1, 3]` and fitted
parameters `[1, 2]`, the code normalizes by `1·1 + 2·3 = 7`, producing
residuals `[1/7, 2/7]`, while normalizing the parameters by their plain sum 3
as the claim states yields `[1/3, 2/3]` — the two disagree. -/
theorem c8_counterexample :
    residualRow psf2 cb0 [1, 2] [1, 3] = [1/7, 2/7]
      ∧ specResidualRow psf2 cb0 [1, 2] = [1/3, 2/3]
      ∧ residualRow psf2 cb0 [1, 2] [1, 3] ≠ specResidualRow psf2 cb0 [1, 2] := by
  have h1 : residualRow psf2 cb0 [1, 2] [1, 3] = [1/7, 2/7] := by
    norm_num [residualRow, predictList, psf2, cb0, List.range_succ]
  have h2 : specResidualRow psf2 cb0 [1, 2] = [1/3, 2/3] := by
    norm_num [specResidualRow, predictList, psf2, cb0, List.range_succ]
  refine ⟨h1, h2, ?_⟩
  rw [h1, h2]
  simp only [ne_eq, List.cons.injEq, and_true]
  norm_num

/-- Stamp dimensions of a candidate. -/
def dimsOf (c : Candidate) : ℤ × ℤ := (c.width, c.height)

/-- Marking candidates BAD never touches stamp dimensions. -/
theorem dims_markBad (idxs : List ℕ) (cs : List Candidate) :
    (markBad idxs cs).map dimsOf = cs.map dimsOf := by
  rw [markBad]
  exact map_proj_enumFromMap dimsOf
    (fun ic => if ic.1 ∈ idxs then { ic.2 with status := Status.bad } else ic.2)
    (fun ic => by by_cases h : ic.1 ∈ idxs <;> simp [dimsOf, h]) 0 cs

/-- The fit's chi-square side effect never touches stamp dimensions. -/
theorem dims_fitPsfEffect (d : FitDelegate) (cs : List Candidate) :
    (fitPsfEffect d cs).map dimsOf = cs.map dimsOf := by
  rw [fitPsfEffect]
  exact map_proj_enumFromMap dimsOf
    (fun ic =>
      { ic.2 with
        chi2 := (d.newChi2 cs ic.1).1
        chi2IsNan := (d.newChi2 cs ic.1).2 })
    (fun ic => rfl) 0 cs

/-- The status reset never touches stamp dimensions. -/
theorem dims_resetAll (cs : List Candidate) :
    (resetAll cs).map dimsOf = cs.map dimsOf := by
  simp [resetAll, List.map_map, Function.comp_def, dimsOf]

/-- The finalizer's flag setting never touches stamp dimensions. -/
theorem dims_setPsfStarFlags (cs : List Candidate) :
    (setPsfStarFlags cs).map dimsOf = cs.map dimsOf := by
  simp only [setPsfStarFlags, List.map_map, Function.comp_def]
  refine List.map_congr_left (fun c _ => ?_)
  by_cases h : c.status = Status.bad <;> simp [dimsOf, h]

/-- The chi-square rejection step never touches stamp dimensions. -/
theorem dims_chi2RejectStep (det : Determiner) (iter : ℕ) (cs : List Candidate) :
    (chi2RejectStep det iter cs).map dimsOf = cs.map dimsOf := by
  rw [chi2RejectStep_eq_markBad]
  exact dims_markBad _ cs

/-- The spatial-residual rejection step never touches stamp dimensions. -/
theorem dims_spatialRejectStep (d : FitDelegate) (det : Determiner)
    (psf : PsfModel) (iter : ℕ) (cs : List Candidate) :
    (spatialRejectStep d det psf iter cs).map dimsOf = cs.map dimsOf :=
  dims_markBad _ cs

/-- One full round never touches stamp dimensions. -/
theorem dims_oneRound (d : FitDelegate) (det : Determiner) (iter : ℕ)
    (cs : List Candidate) :
    (oneRound d det iter cs).map dimsOf = cs.map dimsOf := by
  show (spatialRejectStep d det (d.psfOf cs) iter
    (chi2RejectStep det iter (resetAll (fitPsfEffect d cs)))).map dimsOf = cs.map dimsOf
  rw [dims_spatialRejectStep, dims_chi2RejectStep, dims_resetAll, dims_fitPsfEffect]

/-- The whole loop never touches stamp dimensions. -/
theorem dims_runLoopAux (d : FitDelegate) (det : Determiner) (dbg : DebugCfg)
    (K : ℕ) : ∀ (fuel iter : ℕ) (cs : List Candidate),
    ((runLoopAux d det dbg K fuel iter cs).1).map dimsOf = cs.map dimsOf := by
  intro fuel
  induction fuel with
  | zero => intro iter cs; rfl
  | succ n ih =>
    intro iter cs
    rw [runLoopAux]
    by_cases h : iter < K
    · rw [if_pos h]
      by_cases hb : breakAfter dbg iter = true
      · rw [if_pos hb]
        exact dims_oneRound d det iter cs
      · rw [if_neg hb, ih (iter + 1) (oneRound d det iter cs), dims_oneRound]
    · rw [if_neg h]

/-- C9 (spec-modelled: the class-level `setWidth`/`setHeight` of lines 139-140
are modelled, per §4.1 of the spec, as setting every candidate's stamp
dimensions): before the first loop round every candidate's stamp width and
height equal the computed kernel size, the dimensions are set at that one
point only, and no later step of the run — no round of the loop, nor the
extra fit, nor the finalizer — changes any candidate's stamp dimensions. -/
theorem stamp_size_set_once (d : FitDelegate) (sqrtFn : ℚ → ℚ)
    (det : Determiner) (dbg : DebugCfg) (cs : List Candidate) (h : cs ≠ []) :
    (loopInput sqrtFn det cs).map dimsOf
        = cs.map (fun _ => ((detAfterSizing sqrtFn det cs).kernelSize,
            (detAfterSizing sqrtFn det cs).kernelSize))
      ∧ (setPsfStarFlags (fitPsfEffect d (loopFinalState d sqrtFn det dbg cs))).map
            dimsOf
          = (loopInput sqrtFn det cs).map dimsOf := by
  constructor
  · simp [loopInput, sizedCandidates, List.map_map, Function.comp_def, dimsOf]
  · rw [dims_setPsfStarFlags, dims_fitPsfEffect, loopFinalState, runLoop,
      dims_runLoopAux]

/-- C9, witness: the theorem applied to a concrete one-candidate run. -/
theorem stamp_size_set_once_witness :
    (loopInput sqrtC5 detC1 [cChi100]).map dimsOf
        = [cChi100].map (fun _ => ((detAfterSizing sqrtC5 detC1 [cChi100]).kernelSize,
            (detAfterSizing sqrtC5 detC1 [cChi100]).kernelSize))
      ∧ (setPsfStarFlags
            (fitPsfEffect dTriv (loopFinalState dTriv sqrtC5 detC1 dbgOff [cChi100]))).map
            dimsOf
          = (loopInput sqrtC5 detC1 [cChi100]).map dimsOf :=
  stamp_size_set_once dTriv sqrtC5 detC1 dbgOff [cChi100] (List.cons_ne_nil _ _)

/-- C10: `determinePsf` stores the computed stamp size back into the
instance's `_kernelSize` (lines 127 and 129-133) and returns that mutated
instance, so the mutation persists after the call; a second call on the same
instance therefore uses the previous run's computed size as its base, and
whenever that stored size is at least 15 the second sizing takes the
absolute-size branch and performs no moment-based scaling, leaving the stored
size unchanged — repeated calls on one instance are not independent. -/
theorem kernelSize_mutation (d : FitDelegate) (sqrtFn : ℚ → ℚ)
    (det : Determiner) (dbg : DebugCfg) (cs cs2 : List Candidate) (h : cs ≠ []) :
    (∃ psf out, determinePsf d sqrtFn det dbg cs
        = .ok (psf, out, detAfterSizing sqrtFn det cs))
      ∧ (detAfterSizing sqrtFn det cs).kernelSize
          = computeKernelSize det.kernelSize det.kernelSizeMin det.kernelSizeMax
              sqrtFn (cs.map (fun c => c.base.semiA))
      ∧ (15 ≤ (detAfterSizing sqrtFn det cs).kernelSize →
          detAfterSizing sqrtFn (detAfterSizing sqrtFn det cs) cs2
            = detAfterSizing sqrtFn det cs) := by
  refine ⟨⟨d.psfOf (loopFinalState d sqrtFn det dbg cs),
    setPsfStarFlags (fitPsfEffect d (loopFinalState d sqrtFn det dbg cs)), ?_⟩,
    rfl, ?_⟩
  · rw [determinePsf, if_neg (by simpa using h)]
  · intro h15
    show { detAfterSizing sqrtFn det cs with
        kernelSize := computeKernelSize (detAfterSizing sqrtFn det cs).kernelSize
          (detAfterSizing sqrtFn det cs).kernelSizeMin
          (detAfterSizing sqrtFn det cs).kernelSizeMax sqrtFn
          (cs2.map (fun c => c.base.semiA)) }
      = detAfterSizing sqrtFn det cs
    rw [computeKernelSize, if_pos h15]

/-- Test fixture: base kernel size 5, so the moment-based scaling branch runs
on the first call. -/
def detC10 : Determiner :=
  { kernelSize := 5, kernelSizeMin := 5, kernelSizeMax := 99,
    reducedChi2ForPsfCandidates := 10, nIterForPsf := 5, spatialReject := 3 }

/-- Test fixture: a candidate whose second-moment semi-major axis is 1. -/
def cA1 : Candidate := { cChi100 with base := { cb0 with semiA := 1 } }

/-- Test fixture: a candidate whose second-moment semi-major axis is 4. -/
def cA4 : Candidate := { cChi100 with base := { cb0 with semiA := 4 } }

/-- Test fixture: a candidate whose second-moment semi-major axis is 9. -/
def cA9 : Candidate := { cChi100 with base := { cb0 with semiA := 9 } }

/-- Test fixture: three candidates with median semi-major axis 4, which drive
the computed kernel size to 21 for base 5. -/
def csC10 : List Candidate := [cA1, cA4, cA9]

/-- C10, witness: a first call on base 5 computes size 21 and stores it; the
second sizing on the same instance (stored size 21 ≥ 15) leaves the instance
unchanged. -/
theorem kernelSize_mutation_witness :
    (∃ psf out, determinePsf dTriv sqrtC5 detC10 dbgOff csC10
        = .ok (psf, out, detAfterSizing sqrtC5 detC10 csC10))
      ∧ detAfterSizing sqrtC5 (detAfterSizing sqrtC5 detC10 csC10) [cChi100]
          = detAfterSizing sqrtC5 detC10 csC10 := by
  have h := kernelSize_mutation dTriv sqrtC5 detC10 dbgOff csC10 [cChi100]
    (List.cons_ne_nil _ _)
  refine ⟨h.1, h.2.2 ?_⟩
  norm_num [detAfterSizing, computeKernelSize, detC10, csC10, cA1, cA4, cA9,
    cChi100, cb0, npMedian, sortByAsc, insertByAsc, pyInt, sqrtC5, List.getD]
